import Mathlib

/-!
Verification of the escrow instruction processor (`src/processor.rs`).

The two operations (`process_init_escrow`, `process_trade`) are embedded
shallowly. External collaborators named by the design document — the
token-ledger primitives, the fixed-width record serialization, and the
rent-exemption oracle — are modelled at the interface the processor
consumes: account data is a semantic value (a well-formed escrow buffer,
a well-formed token-account buffer, a rent sysvar, or raw bytes), external
ledger calls become issued `Command` values whose acceptance is decided by
an oracle, and the program-address derivation is an arbitrary deterministic
function parameter. Machine integers (u64 lamport arithmetic) are Nat with
an explicit 2^64 bound at the one overflow-checked addition.
-/

namespace EscrowSpec

/-- A 32-byte public identifier, modelled as an opaque natural tag. -/
structure Pubkey where
  key : Nat
deriving DecidableEq, Repr

/-- The external token program's fixed identity (`spl_token::id()`). -/
def spl_token_id : Pubkey := ⟨999⟩

/-- The persisted escrow record (`state.rs` layout, one record per escrow):
initialization flag, the three recorded identities, and the expected
counter-asset amount (u64). -/
structure Escrow where
  is_initialized : Bool
  initializer_pubkey : Pubkey
  temp_token_account_pubkey : Pubkey
  initializer_token_to_receive_account_pubkey : Pubkey
  expected_amount : Nat
deriving DecidableEq, Repr

/-- The all-zero record a freshly allocated, correctly sized buffer
deserializes to. -/
def Escrow.zeroed : Escrow := ⟨false, ⟨0⟩, ⟨0⟩, ⟨0⟩, 0⟩

/-- The slice of an external token-ledger account the processor reads:
its token balance and whether the ledger considers it initialized. -/
structure TokenAccount where
  amount : Nat
  initialized : Bool
deriving DecidableEq, Repr

/-- The rent-exemption oracle (design §6): given balance and data size,
answers whether the account is exempt from collection. -/
structure Rent where
  is_exempt : Nat → Nat → Bool

/-- Account data as the processor observes it through the external
serialization layer: an empty (cleared) buffer, a well-formed escrow
record buffer, a well-formed token-account buffer, the rent sysvar, or
bytes that deserialize as neither. -/
inductive AccountData where
  | cleared : AccountData
  | escrowRec (e : Escrow) : AccountData
  | tokenAcc (t : TokenAccount) : AccountData
  | rentSysvar (r : Rent) : AccountData
  | otherBytes (len : Nat) : AccountData

/-- Byte length of the buffer each data value stands for (escrow record
layout is 105 bytes, token account 165). -/
def AccountData.data_len : AccountData → Nat
  | .cleared => 0
  | .escrowRec _ => 105
  | .tokenAcc _ => 165
  | .rentSysvar _ => 17
  | .otherBytes n => n

/-- One entry of the positional account list handed to an instruction. -/
structure AccountInfo where
  key : Pubkey
  is_signer : Bool
  owner : Pubkey
  lamports : Nat
  data : AccountData

/-- The error outcomes the processor can surface (its own `EscrowError`
variants together with the host `ProgramError` variants it returns). -/
inductive ProgError where
  | NotEnoughAccountKeys
  | MissingRequiredSignature
  | IncorrectProgramId
  | NotRentExempt
  | AccountAlreadyInitialized
  | ExpectedAmountMissmatch
  | InvalidAccountData
  | UninitializedAccount
  | AmountOverFlow
  | InvalidArgument
  | ExternalFailure
deriving DecidableEq, Repr

/-- Model of `Escrow::unpack_unchecked`: deserialize-or-fail without the
initialization check; tolerates the all-zero buffer (which yields an
uninitialized record) but demands a well-formed 105-byte record buffer. -/
def Escrow.unpack_unchecked : AccountData → Except ProgError Escrow
  | .escrowRec e => .ok e
  | _ => .error .InvalidAccountData

/-- Model of `Escrow::unpack` (`Pack::unpack`): deserialize, then require the
record to be initialized. -/
def Escrow.unpack (d : AccountData) : Except ProgError Escrow :=
  match Escrow.unpack_unchecked d with
  | .error e => .error e
  | .ok info => if info.is_initialized then .ok info else .error .UninitializedAccount

/-- Model of `TokenAccount::unpack`: deserialize a token-ledger account buffer,
requiring it to be initialized on the ledger. -/
def TokenAccount.unpack : AccountData → Except ProgError TokenAccount
  | .tokenAcc t => if t.initialized then .ok t else .error .UninitializedAccount
  | _ => .error .InvalidAccountData

/-- Model of `Rent::from_account_info`: read the rent oracle out of the supplied
sysvar account. -/
def Rent.from_account_info (a : AccountInfo) : Except ProgError Rent :=
  match a.data with
  | .rentSysvar r => .ok r
  | _ => .error .InvalidArgument

/-- The fixed seed `b"escrow"` used for authority derivation, as bytes. -/
def escrowSeed : List Nat := [101, 115, 99, 114, 111, 119]

/-- Commands the processor issues to the external token ledger. -/
inductive Command where
  | set_authority (token_program target new_authority current_authority : Pubkey)
  | transfer (token_program source destination authority : Pubkey) (amount : Nat)
  | close_account (token_program target destination authority : Pubkey)
deriving DecidableEq, Repr

/-- One issued external call: `invoke` (plain) or `invoke_signed` with the
program-derived seed material standing in for a signature. -/
inductive LedgerCall where
  | plain (c : Command)
  | signed (c : Command) (seeds : List (List (List Nat)))
deriving DecidableEq, Repr

/-- Result of one instruction invocation: the ordered trace of external
ledger calls issued, the account list after the processor's own writes,
and success or the first error. -/
structure Outcome where
  trace : List LedgerCall
  accounts : List AccountInfo
  result : Except ProgError Unit

/-- Model of `u64::checked_add`: the sum, unless it exceeds the representable
range. -/
def u64_checked_add (a b : Nat) : Option Nat :=
  if a + b < 2 ^ 64 then some (a + b) else none

/-- The `open` transition, `process_init_escrow`, parameterized by the
deterministic program-address derivation `fpa`
(`Pubkey::find_program_address`) and by the external ledger's acceptance
oracle for issued commands. Accounts are consumed positionally exactly as
the source's iterator does; `Escrow::pack` is the in-place replacement of
the record account's data (the buffer was already checked to be
record-sized by the successful `unpack_unchecked`). -/
def process_init_escrow (fpa : List (List Nat) → Pubkey → Pubkey × Nat)
    (oracle : Command → Bool) (accounts : List AccountInfo) (amount : Nat)
    (program_id : Pubkey) : Outcome :=
  match accounts with
  | [] => ⟨[], accounts, .error .NotEnoughAccountKeys⟩
  | initializer :: tail0 =>
    if initializer.is_signer = false then
      ⟨[], accounts, .error .MissingRequiredSignature⟩
    else
      match tail0 with
      | [] => ⟨[], accounts, .error .NotEnoughAccountKeys⟩
      | temp_token_account :: tail1 =>
        match tail1 with
        | [] => ⟨[], accounts, .error .NotEnoughAccountKeys⟩
        | token_to_receive_account :: tail2 =>
          if token_to_receive_account.owner ≠ spl_token_id then
            ⟨[], accounts, .error .IncorrectProgramId⟩
          else
            match tail2 with
            | [] => ⟨[], accounts, .error .NotEnoughAccountKeys⟩
            | escrow_account :: tail3 =>
              match tail3 with
              | [] => ⟨[], accounts, .error .NotEnoughAccountKeys⟩
              | rent_account :: tail4 =>
                match Rent.from_account_info rent_account with
                | .error e => ⟨[], accounts, .error e⟩
                | .ok rent =>
                  if rent.is_exempt escrow_account.lamports escrow_account.data.data_len = false then
                    ⟨[], accounts, .error .NotRentExempt⟩
                  else
                    match Escrow.unpack_unchecked escrow_account.data with
                    | .error e => ⟨[], accounts, .error e⟩
                    | .ok escrow_info0 =>
                      if escrow_info0.is_initialized then
                        ⟨[], accounts, .error .AccountAlreadyInitialized⟩
                      else
                        let escrow_info : Escrow :=
                          { is_initialized := true
                            initializer_pubkey := initializer.key
                            temp_token_account_pubkey := temp_token_account.key
                            initializer_token_to_receive_account_pubkey :=
                              token_to_receive_account.key
                            expected_amount := amount }
                        let accounts1 :=
                          accounts.set 3 { escrow_account with data := .escrowRec escrow_info }
                        let pda := (fpa [escrowSeed] program_id).1
                        match tail4 with
                        | [] => ⟨[], accounts1, .error .NotEnoughAccountKeys⟩
                        | token_program :: _tail5 =>
                          let owner_change_ix : Command :=
                            .set_authority token_program.key temp_token_account.key pda
                              initializer.key
                          if oracle owner_change_ix then
                            ⟨[.plain owner_change_ix], accounts1, .ok ()⟩
                          else
                            ⟨[.plain owner_change_ix], accounts1, .error .ExternalFailure⟩

/-- The `settle` (Exchange) transition, `process_trade`, parameterized
like `process_init_escrow`. `expected_amount` is the taker-asserted trade
size decoded from the instruction; the record's own `expected_amount` is
read out of the escrow account. Accounts are consumed positionally in the
source's iterator order, the derived-authority account being fetched only
after the first transfer has been issued. -/
def process_trade (fpa : List (List Nat) → Pubkey → Pubkey × Nat)
    (oracle : Command → Bool) (accounts : List AccountInfo)
    (expected_amount : Nat) (program_id : Pubkey) : Outcome :=
  match accounts with
  | [] => ⟨[], accounts, .error .NotEnoughAccountKeys⟩
  | trade_taker_account :: tail0 =>
    if trade_taker_account.is_signer = false then
      ⟨[], accounts, .error .MissingRequiredSignature⟩
    else
      match tail0 with
      | [] => ⟨[], accounts, .error .NotEnoughAccountKeys⟩
      | taker_token_to_send_account :: tail1 =>
        match tail1 with
        | [] => ⟨[], accounts, .error .NotEnoughAccountKeys⟩
        | taker_token_to_recieve_account :: tail2 =>
          match tail2 with
          | [] => ⟨[], accounts, .error .NotEnoughAccountKeys⟩
          | pdas_temp_token_account :: tail3 =>
            match TokenAccount.unpack pdas_temp_token_account.data with
            | .error e => ⟨[], accounts, .error e⟩
            | .ok pdas_temp_token_account_info =>
              if pdas_temp_token_account_info.amount ≠ expected_amount then
                ⟨[], accounts, .error .ExpectedAmountMissmatch⟩
              else
                match tail3 with
                | [] => ⟨[], accounts, .error .NotEnoughAccountKeys⟩
                | initializer_account :: tail4 =>
                  match tail4 with
                  | [] => ⟨[], accounts, .error .NotEnoughAccountKeys⟩
                  | initializer_token_to_recieve_account :: tail5 =>
                    match tail5 with
                    | [] => ⟨[], accounts, .error .NotEnoughAccountKeys⟩
                    | escrow_account :: tail6 =>
                      match Escrow.unpack escrow_account.data with
                      | .error e => ⟨[], accounts, .error e⟩
                      | .ok escrow_info =>
                        match TokenAccount.unpack taker_token_to_send_account.data with
                        | .error e => ⟨[], accounts, .error e⟩
                        | .ok taker_token_to_send_info =>
                          if taker_token_to_send_info.amount < escrow_info.expected_amount then
                            ⟨[], accounts, .error .ExpectedAmountMissmatch⟩
                          else if escrow_info.initializer_pubkey ≠ initializer_account.key then
                            ⟨[], accounts, .error .InvalidAccountData⟩
                          else if escrow_info.temp_token_account_pubkey ≠ pdas_temp_token_account.key then
                            ⟨[], accounts, .error .InvalidAccountData⟩
                          else if escrow_info.initializer_token_to_receive_account_pubkey ≠ initializer_token_to_recieve_account.key then
                            ⟨[], accounts, .error .InvalidAccountData⟩
                          else
                            match tail6 with
                            | [] => ⟨[], accounts, .error .NotEnoughAccountKeys⟩
                            | token_program :: tail7 =>
                              let pda_bump := fpa [escrowSeed] program_id
                              let transfer_y_to_initializer_ix : Command :=
                                .transfer token_program.key taker_token_to_send_account.key
                                  initializer_token_to_recieve_account.key
                                  trade_taker_account.key escrow_info.expected_amount
                              let trace1 := [LedgerCall.plain transfer_y_to_initializer_ix]
                              if oracle transfer_y_to_initializer_ix = false then
                                ⟨trace1, accounts, .error .ExternalFailure⟩
                              else
                                match tail7 with
                                | [] => ⟨trace1, accounts, .error .NotEnoughAccountKeys⟩
                                | _pda_account :: _tail8 =>
                                  let seeds : List (List (List Nat)) :=
                                    [[escrowSeed, [pda_bump.2]]]
                                  let transfer_x_to_trade_taker_ix : Command :=
                                    .transfer token_program.key pdas_temp_token_account.key
                                      taker_token_to_recieve_account.key pda_bump.1
                                      expected_amount
                                  let trace2 :=
                                    trace1 ++ [LedgerCall.signed transfer_x_to_trade_taker_ix seeds]
                                  if oracle transfer_x_to_trade_taker_ix = false then
                                    ⟨trace2, accounts, .error .ExternalFailure⟩
                                  else
                                    let close_pdas_temp_account_ix : Command :=
                                      .close_account token_program.key pdas_temp_token_account.key
                                        initializer_account.key pda_bump.1
                                    let trace3 :=
                                      trace2 ++ [LedgerCall.signed close_pdas_temp_account_ix seeds]
                                    if oracle close_pdas_temp_account_ix = false then
                                      ⟨trace3, accounts, .error .ExternalFailure⟩
                                    else
                                      match u64_checked_add initializer_account.lamports
                                          escrow_account.lamports with
                                      | none => ⟨trace3, accounts, .error .AmountOverFlow⟩
                                      | some s =>
                                        let accounts1 :=
                                          accounts.set 4 { initializer_account with lamports := s }
                                        let accounts2 :=
                                          accounts1.set 6 { escrow_account with lamports := 0 }
                                        let accounts3 :=
                                          accounts2.set 6
                                            { escrow_account with lamports := 0, data := .cleared }
                                        ⟨trace3, accounts3, .ok ()⟩

/-! ## Concrete fixtures for evaluating the transitions -/

/-- A concrete deterministic derivation function, for concrete runs. -/
def fpaDemo : List (List Nat) → Pubkey → Pubkey × Nat :=
  fun seeds p => (⟨1000 + p.key + seeds.length⟩, 254)

/-- An external ledger that accepts every issued command. -/
def oracleYes : Command → Bool := fun _ => true

/-- A concrete rent oracle: exempt when the balance is at least 100. -/
def rentDemo : Rent := ⟨fun l _ => decide (100 ≤ l)⟩

/-- A concrete initialized escrow record: initializer `⟨1⟩`, custody
account `⟨2⟩`, receiving account `⟨3⟩`, expecting 50 units of Y. -/
def escrowDemo : Escrow := ⟨true, ⟨1⟩, ⟨2⟩, ⟨3⟩, 50⟩

/-- A well-formed `open` account list: signer initializer, custody
account, ledger-owned receiving account, fresh rent-exempt record, rent
sysvar, token program. -/
def openAccounts : List AccountInfo :=
  [ ⟨⟨1⟩, true, ⟨50⟩, 10, .otherBytes 0⟩,
    ⟨⟨2⟩, false, spl_token_id, 5, .tokenAcc ⟨100, true⟩⟩,
    ⟨⟨3⟩, false, spl_token_id, 5, .tokenAcc ⟨0, true⟩⟩,
    ⟨⟨4⟩, false, ⟨52⟩, 200, .escrowRec Escrow.zeroed⟩,
    ⟨⟨5⟩, false, ⟨53⟩, 1, .rentSysvar rentDemo⟩,
    ⟨spl_token_id, false, ⟨54⟩, 1, .otherBytes 0⟩ ]

/-- An `open` account list whose record is already initialized and whose
initializer did not sign. -/
def openAlreadyInitNoSig : List AccountInfo :=
  [ ⟨⟨1⟩, false, ⟨50⟩, 10, .otherBytes 0⟩,
    ⟨⟨2⟩, false, spl_token_id, 5, .tokenAcc ⟨100, true⟩⟩,
    ⟨⟨3⟩, false, spl_token_id, 5, .tokenAcc ⟨0, true⟩⟩,
    ⟨⟨4⟩, false, ⟨52⟩, 200, .escrowRec escrowDemo⟩,
    ⟨⟨5⟩, false, ⟨53⟩, 1, .rentSysvar rentDemo⟩,
    ⟨spl_token_id, false, ⟨54⟩, 1, .otherBytes 0⟩ ]

/-- A well-formed `settle` account list matching `escrowDemo`: signer
taker, taker send-account with 75 Y, taker receive-account, custody
account `⟨2⟩` with 100 X, initializer `⟨1⟩`, initializer receiving
account `⟨3⟩`, the record, token program, derived-authority account. -/
def tradeAccounts : List AccountInfo :=
  [ ⟨⟨11⟩, true, ⟨60⟩, 10, .otherBytes 0⟩,
    ⟨⟨12⟩, false, spl_token_id, 5, .tokenAcc ⟨75, true⟩⟩,
    ⟨⟨13⟩, false, spl_token_id, 5, .tokenAcc ⟨0, true⟩⟩,
    ⟨⟨2⟩, false, spl_token_id, 5, .tokenAcc ⟨100, true⟩⟩,
    ⟨⟨1⟩, false, ⟨64⟩, 30, .otherBytes 0⟩,
    ⟨⟨3⟩, false, spl_token_id, 5, .tokenAcc ⟨0, true⟩⟩,
    ⟨⟨14⟩, false, ⟨66⟩, 200, .escrowRec escrowDemo⟩,
    ⟨spl_token_id, false, ⟨67⟩, 1, .otherBytes 0⟩,
    ⟨⟨15⟩, false, ⟨68⟩, 0, .otherBytes 0⟩ ]

/-- The state the successful settle on `tradeAccounts` leaves behind, as
the replayed invocation sees it: custody account closed (data gone),
record data cleared and lamports zeroed, rent swept to the initializer. -/
def tradeReplayAccounts : List AccountInfo :=
  [ ⟨⟨11⟩, true, ⟨60⟩, 10, .otherBytes 0⟩,
    ⟨⟨12⟩, false, spl_token_id, 5, .tokenAcc ⟨25, true⟩⟩,
    ⟨⟨13⟩, false, spl_token_id, 5, .tokenAcc ⟨100, true⟩⟩,
    ⟨⟨2⟩, false, spl_token_id, 0, .cleared⟩,
    ⟨⟨1⟩, false, ⟨64⟩, 230, .otherBytes 0⟩,
    ⟨⟨3⟩, false, spl_token_id, 5, .tokenAcc ⟨50, true⟩⟩,
    ⟨⟨14⟩, false, ⟨66⟩, 0, .cleared⟩,
    ⟨spl_token_id, false, ⟨67⟩, 1, .otherBytes 0⟩,
    ⟨⟨15⟩, false, ⟨68⟩, 0, .otherBytes 0⟩ ]

/-! ## Claims -/

/-- C9: an `open` call whose supplied initializer account is not a signer
fails with MissingSignature, independently of every other supplied
account and of the record's state: no account is mutated and no ledger
command is issued. -/
theorem init_escrow_requires_signer (fpa : List (List Nat) → Pubkey → Pubkey × Nat)
    (oracle : Command → Bool) (a0 : AccountInfo) (rest : List AccountInfo)
    (amount : Nat) (pid : Pubkey) (h : a0.is_signer = false) :
    process_init_escrow fpa oracle (a0 :: rest) amount pid =
      ⟨[], a0 :: rest, .error .MissingRequiredSignature⟩ := by
  simp [process_init_escrow, h]

/-- Witness for C9 at a concrete non-signing initializer. -/
theorem init_escrow_requires_signer_witness :
    process_init_escrow fpaDemo oracleYes openAlreadyInitNoSig 7 ⟨5⟩ =
      ⟨[], openAlreadyInitNoSig, .error .MissingRequiredSignature⟩ :=
  init_escrow_requires_signer fpaDemo oracleYes _ _ 7 ⟨5⟩ rfl

/-- C4 counterexample: an `open` call on an already-initialized record
whose initializer did not sign fails with MissingSignature, not with
AlreadyInitialized, so the claim's unconditional error code is wrong. -/
theorem open_already_initialized_error_not_unconditional :
    (process_init_escrow fpaDemo oracleYes openAlreadyInitNoSig 7 ⟨5⟩).result =
        .error .MissingRequiredSignature ∧
      ProgError.MissingRequiredSignature ≠ ProgError.AccountAlreadyInitialized :=
  ⟨rfl, by decide⟩

/-- C4 (amended): an `open` call on an already-initialized record that
passes the earlier checks (signer initializer, ledger-owned receiving
account, rent-exempt record) fails with AlreadyInitialized, with the
record — and every account — unchanged and no ledger command issued. -/
theorem init_escrow_already_initialized (fpa : List (List Nat) → Pubkey → Pubkey × Nat)
    (oracle : Command → Bool) (a0 a1 a2 a3 a4 : AccountInfo)
    (rest : List AccountInfo) (amount : Nat) (pid : Pubkey) (r : Rent) (e : Escrow)
    (h0 : a0.is_signer = true) (h2 : a2.owner = spl_token_id)
    (h4 : a4.data = .rentSysvar r)
    (hex : r.is_exempt a3.lamports a3.data.data_len = true)
    (h3 : a3.data = .escrowRec e) (hinit : e.is_initialized = true) :
    process_init_escrow fpa oracle (a0 :: a1 :: a2 :: a3 :: a4 :: rest) amount pid =
      ⟨[], a0 :: a1 :: a2 :: a3 :: a4 :: rest, .error .AccountAlreadyInitialized⟩ := by
  rw [h3] at hex
  simp [process_init_escrow, h0, h2, h3, h4, hinit, Rent.from_account_info,
    Escrow.unpack_unchecked, hex]

/-- Witness for the amended C4: `open` on `openAccounts` with the record
swapped for an initialized one fails with AlreadyInitialized and changes
nothing. -/
theorem init_escrow_already_initialized_witness :
    process_init_escrow fpaDemo oracleYes
        (⟨⟨1⟩, true, ⟨50⟩, 10, .otherBytes 0⟩ ::
          ⟨⟨2⟩, false, spl_token_id, 5, .tokenAcc ⟨100, true⟩⟩ ::
          ⟨⟨3⟩, false, spl_token_id, 5, .tokenAcc ⟨0, true⟩⟩ ::
          ⟨⟨4⟩, false, ⟨52⟩, 200, .escrowRec escrowDemo⟩ ::
          ⟨⟨5⟩, false, ⟨53⟩, 1, .rentSysvar rentDemo⟩ ::
          [⟨spl_token_id, false, ⟨54⟩, 1, .otherBytes 0⟩]) 7 ⟨5⟩ =
      ⟨[], ⟨⟨1⟩, true, ⟨50⟩, 10, .otherBytes 0⟩ ::
          ⟨⟨2⟩, false, spl_token_id, 5, .tokenAcc ⟨100, true⟩⟩ ::
          ⟨⟨3⟩, false, spl_token_id, 5, .tokenAcc ⟨0, true⟩⟩ ::
          ⟨⟨4⟩, false, ⟨52⟩, 200, .escrowRec escrowDemo⟩ ::
          ⟨⟨5⟩, false, ⟨53⟩, 1, .rentSysvar rentDemo⟩ ::
          [⟨spl_token_id, false, ⟨54⟩, 1, .otherBytes 0⟩],
        .error .AccountAlreadyInitialized⟩ :=
  init_escrow_already_initialized fpaDemo oracleYes _ _ _ _ _ _ 7 ⟨5⟩ rentDemo escrowDemo
    rfl rfl rfl (by decide) rfl rfl

/-- C3: an `open` call with a signer initializer, a receiving account
owned by the token ledger program, and a rent-exempt uninitialized
record persists the record with `is_initialized = true`, the
initializer's key, the custody account's key, the receiving account's
key and the supplied amount, and issues exactly one set-authority
command moving the custody account's authority from the initializer to
the address derived from the fixed seed and the program identity. -/
theorem init_escrow_success (fpa : List (List Nat) → Pubkey → Pubkey × Nat)
    (oracle : Command → Bool) (a0 a1 a2 a3 a4 a5 : AccountInfo)
    (rest : List AccountInfo) (amount : Nat) (pid : Pubkey) (r : Rent) (e0 : Escrow)
    (h0 : a0.is_signer = true) (h2 : a2.owner = spl_token_id)
    (h4 : a4.data = .rentSysvar r)
    (hex : r.is_exempt a3.lamports a3.data.data_len = true)
    (h3 : a3.data = .escrowRec e0) (hinit : e0.is_initialized = false) :
    process_init_escrow fpa oracle (a0 :: a1 :: a2 :: a3 :: a4 :: a5 :: rest) amount pid =
      ⟨[.plain (.set_authority a5.key a1.key (fpa [escrowSeed] pid).1 a0.key)],
        a0 :: a1 :: a2 ::
          { a3 with data := .escrowRec ⟨true, a0.key, a1.key, a2.key, amount⟩ } ::
          a4 :: a5 :: rest,
        if oracle (.set_authority a5.key a1.key (fpa [escrowSeed] pid).1 a0.key) then
          .ok () else .error .ExternalFailure⟩ := by
  rw [h3] at hex
  simp only [process_init_escrow, h0, h2, h3, h4, hinit, Rent.from_account_info,
    Escrow.unpack_unchecked, hex, List.set]
  split
  · simp_all
  · cases ho : oracle (Command.set_authority a5.key a1.key (fpa [escrowSeed] pid).1 a0.key) <;>
      simp [ho]

/-- Witness for C3 on the concrete `openAccounts` list. -/
theorem init_escrow_success_witness :
    process_init_escrow fpaDemo oracleYes openAccounts 7 ⟨5⟩ =
      ⟨[.plain (.set_authority spl_token_id ⟨2⟩ (fpaDemo [escrowSeed] ⟨5⟩).1 ⟨1⟩)],
        ⟨⟨1⟩, true, ⟨50⟩, 10, .otherBytes 0⟩ ::
          ⟨⟨2⟩, false, spl_token_id, 5, .tokenAcc ⟨100, true⟩⟩ ::
          ⟨⟨3⟩, false, spl_token_id, 5, .tokenAcc ⟨0, true⟩⟩ ::
          ⟨⟨4⟩, false, ⟨52⟩, 200, .escrowRec ⟨true, ⟨1⟩, ⟨2⟩, ⟨3⟩, 7⟩⟩ ::
          ⟨⟨5⟩, false, ⟨53⟩, 1, .rentSysvar rentDemo⟩ ::
          [⟨spl_token_id, false, ⟨54⟩, 1, .otherBytes 0⟩],
        if oracleYes (.set_authority spl_token_id ⟨2⟩ (fpaDemo [escrowSeed] ⟨5⟩).1 ⟨1⟩) then
          .ok () else .error .ExternalFailure⟩ :=
  init_escrow_success fpaDemo oracleYes _ _ _ _ _ _ _ 7 ⟨5⟩ rentDemo Escrow.zeroed
    rfl rfl rfl (by decide) rfl rfl

/-- C2: on a `settle` call with well-formed account data, the six
preconditions are checked in order — taker signature, custody balance
equal to the asserted amount, taker send-balance at least the record's
expected amount, then the three recorded-identity comparisons — each
failing with its stated error, and the first failure aborts the call
with no account mutated and no ledger command issued. -/
theorem trade_check_order (fpa : List (List Nat) → Pubkey → Pubkey × Nat)
    (oracle : Command → Bool) (a0 a1 a2 a3 a4 a5 a6 : AccountInfo)
    (rest : List AccountInfo) (asserted : Nat) (pid : Pubkey)
    (t3 t1 : TokenAccount) (e : Escrow)
    (h3d : a3.data = .tokenAcc t3) (h3i : t3.initialized = true)
    (h1d : a1.data = .tokenAcc t1) (h1i : t1.initialized = true)
    (h6d : a6.data = .escrowRec e) (hei : e.is_initialized = true) :
    (a0.is_signer = false →
      process_trade fpa oracle (a0 :: a1 :: a2 :: a3 :: a4 :: a5 :: a6 :: rest) asserted pid =
        ⟨[], a0 :: a1 :: a2 :: a3 :: a4 :: a5 :: a6 :: rest,
          .error .MissingRequiredSignature⟩) ∧
    (a0.is_signer = true → t3.amount ≠ asserted →
      process_trade fpa oracle (a0 :: a1 :: a2 :: a3 :: a4 :: a5 :: a6 :: rest) asserted pid =
        ⟨[], a0 :: a1 :: a2 :: a3 :: a4 :: a5 :: a6 :: rest,
          .error .ExpectedAmountMissmatch⟩) ∧
    (a0.is_signer = true → t3.amount = asserted → t1.amount < e.expected_amount →
      process_trade fpa oracle (a0 :: a1 :: a2 :: a3 :: a4 :: a5 :: a6 :: rest) asserted pid =
        ⟨[], a0 :: a1 :: a2 :: a3 :: a4 :: a5 :: a6 :: rest,
          .error .ExpectedAmountMissmatch⟩) ∧
    (a0.is_signer = true → t3.amount = asserted → ¬ t1.amount < e.expected_amount →
      e.initializer_pubkey ≠ a4.key →
      process_trade fpa oracle (a0 :: a1 :: a2 :: a3 :: a4 :: a5 :: a6 :: rest) asserted pid =
        ⟨[], a0 :: a1 :: a2 :: a3 :: a4 :: a5 :: a6 :: rest,
          .error .InvalidAccountData⟩) ∧
    (a0.is_signer = true → t3.amount = asserted → ¬ t1.amount < e.expected_amount →
      e.initializer_pubkey = a4.key → e.temp_token_account_pubkey ≠ a3.key →
      process_trade fpa oracle (a0 :: a1 :: a2 :: a3 :: a4 :: a5 :: a6 :: rest) asserted pid =
        ⟨[], a0 :: a1 :: a2 :: a3 :: a4 :: a5 :: a6 :: rest,
          .error .InvalidAccountData⟩) ∧
    (a0.is_signer = true → t3.amount = asserted → ¬ t1.amount < e.expected_amount →
      e.initializer_pubkey = a4.key → e.temp_token_account_pubkey = a3.key →
      e.initializer_token_to_receive_account_pubkey ≠ a5.key →
      process_trade fpa oracle (a0 :: a1 :: a2 :: a3 :: a4 :: a5 :: a6 :: rest) asserted pid =
        ⟨[], a0 :: a1 :: a2 :: a3 :: a4 :: a5 :: a6 :: rest,
          .error .InvalidAccountData⟩) := by
  refine ⟨?_, ?_, ?_, ?_, ?_, ?_⟩ <;> intros <;>
    simp_all [process_trade, TokenAccount.unpack, Escrow.unpack, Escrow.unpack_unchecked]

/-- Witness for C2: the six-conjunct check-order property instantiated
on the concrete `tradeAccounts` shapes. -/
theorem trade_check_order_witness :
    ((⟨⟨11⟩, false, ⟨60⟩, (10 : Nat), AccountData.otherBytes 0⟩ : AccountInfo).is_signer = false →
      process_trade fpaDemo oracleYes
          (⟨⟨11⟩, false, ⟨60⟩, 10, .otherBytes 0⟩ ::
            ⟨⟨12⟩, false, spl_token_id, 5, .tokenAcc ⟨75, true⟩⟩ ::
            ⟨⟨13⟩, false, spl_token_id, 5, .tokenAcc ⟨0, true⟩⟩ ::
            ⟨⟨2⟩, false, spl_token_id, 5, .tokenAcc ⟨100, true⟩⟩ ::
            ⟨⟨1⟩, false, ⟨64⟩, 30, .otherBytes 0⟩ ::
            ⟨⟨3⟩, false, spl_token_id, 5, .tokenAcc ⟨0, true⟩⟩ ::
            ⟨⟨14⟩, false, ⟨66⟩, 200, .escrowRec escrowDemo⟩ :: []) 100 ⟨5⟩ =
        ⟨[], ⟨⟨11⟩, false, ⟨60⟩, 10, .otherBytes 0⟩ ::
            ⟨⟨12⟩, false, spl_token_id, 5, .tokenAcc ⟨75, true⟩⟩ ::
            ⟨⟨13⟩, false, spl_token_id, 5, .tokenAcc ⟨0, true⟩⟩ ::
            ⟨⟨2⟩, false, spl_token_id, 5, .tokenAcc ⟨100, true⟩⟩ ::
            ⟨⟨1⟩, false, ⟨64⟩, 30, .otherBytes 0⟩ ::
            ⟨⟨3⟩, false, spl_token_id, 5, .tokenAcc ⟨0, true⟩⟩ ::
            ⟨⟨14⟩, false, ⟨66⟩, 200, .escrowRec escrowDemo⟩ :: [],
          .error .MissingRequiredSignature⟩) ∧
    ((⟨⟨11⟩, false, ⟨60⟩, (10 : Nat), AccountData.otherBytes 0⟩ : AccountInfo).is_signer = true →
      (100 : Nat) ≠ 100 →
      process_trade fpaDemo oracleYes
          (⟨⟨11⟩, false, ⟨60⟩, 10, .otherBytes 0⟩ ::
            ⟨⟨12⟩, false, spl_token_id, 5, .tokenAcc ⟨75, true⟩⟩ ::
            ⟨⟨13⟩, false, spl_token_id, 5, .tokenAcc ⟨0, true⟩⟩ ::
            ⟨⟨2⟩, false, spl_token_id, 5, .tokenAcc ⟨100, true⟩⟩ ::
            ⟨⟨1⟩, false, ⟨64⟩, 30, .otherBytes 0⟩ ::
            ⟨⟨3⟩, false, spl_token_id, 5, .tokenAcc ⟨0, true⟩⟩ ::
            ⟨⟨14⟩, false, ⟨66⟩, 200, .escrowRec escrowDemo⟩ :: []) 100 ⟨5⟩ =
        ⟨[], ⟨⟨11⟩, false, ⟨60⟩, 10, .otherBytes 0⟩ ::
            ⟨⟨12⟩, false, spl_token_id, 5, .tokenAcc ⟨75, true⟩⟩ ::
            ⟨⟨13⟩, false, spl_token_id, 5, .tokenAcc ⟨0, true⟩⟩ ::
            ⟨⟨2⟩, false, spl_token_id, 5, .tokenAcc ⟨100, true⟩⟩ ::
            ⟨⟨1⟩, false, ⟨64⟩, 30, .otherBytes 0⟩ ::
            ⟨⟨3⟩, false, spl_token_id, 5, .tokenAcc ⟨0, true⟩⟩ ::
            ⟨⟨14⟩, false, ⟨66⟩, 200, .escrowRec escrowDemo⟩ :: [],
          .error .ExpectedAmountMissmatch⟩) ∧
    ((⟨⟨11⟩, false, ⟨60⟩, (10 : Nat), AccountData.otherBytes 0⟩ : AccountInfo).is_signer = true →
      (100 : Nat) = 100 → (75 : Nat) < escrowDemo.expected_amount →
      process_trade fpaDemo oracleYes
          (⟨⟨11⟩, false, ⟨60⟩, 10, .otherBytes 0⟩ ::
            ⟨⟨12⟩, false, spl_token_id, 5, .tokenAcc ⟨75, true⟩⟩ ::
            ⟨⟨13⟩, false, spl_token_id, 5, .tokenAcc ⟨0, true⟩⟩ ::
            ⟨⟨2⟩, false, spl_token_id, 5, .tokenAcc ⟨100, true⟩⟩ ::
            ⟨⟨1⟩, false, ⟨64⟩, 30, .otherBytes 0⟩ ::
            ⟨⟨3⟩, false, spl_token_id, 5, .tokenAcc ⟨0, true⟩⟩ ::
            ⟨⟨14⟩, false, ⟨66⟩, 200, .escrowRec escrowDemo⟩ :: []) 100 ⟨5⟩ =
        ⟨[], ⟨⟨11⟩, false, ⟨60⟩, 10, .otherBytes 0⟩ ::
            ⟨⟨12⟩, false, spl_token_id, 5, .tokenAcc ⟨75, true⟩⟩ ::
            ⟨⟨13⟩, false, spl_token_id, 5, .tokenAcc ⟨0, true⟩⟩ ::
            ⟨⟨2⟩, false, spl_token_id, 5, .tokenAcc ⟨100, true⟩⟩ ::
            ⟨⟨1⟩, false, ⟨64⟩, 30, .otherBytes 0⟩ ::
            ⟨⟨3⟩, false, spl_token_id, 5, .tokenAcc ⟨0, true⟩⟩ ::
            ⟨⟨14⟩, false, ⟨66⟩, 200, .escrowRec escrowDemo⟩ :: [],
          .error .ExpectedAmountMissmatch⟩) ∧
    ((⟨⟨11⟩, false, ⟨60⟩, (10 : Nat), AccountData.otherBytes 0⟩ : AccountInfo).is_signer = true →
      (100 : Nat) = 100 → ¬ (75 : Nat) < escrowDemo.expected_amount →
      escrowDemo.initializer_pubkey ≠ Pubkey.mk 1 →
      process_trade fpaDemo oracleYes
          (⟨⟨11⟩, false, ⟨60⟩, 10, .otherBytes 0⟩ ::
            ⟨⟨12⟩, false, spl_token_id, 5, .tokenAcc ⟨75, true⟩⟩ ::
            ⟨⟨13⟩, false, spl_token_id, 5, .tokenAcc ⟨0, true⟩⟩ ::
            ⟨⟨2⟩, false, spl_token_id, 5, .tokenAcc ⟨100, true⟩⟩ ::
            ⟨⟨1⟩, false, ⟨64⟩, 30, .otherBytes 0⟩ ::
            ⟨⟨3⟩, false, spl_token_id, 5, .tokenAcc ⟨0, true⟩⟩ ::
            ⟨⟨14⟩, false, ⟨66⟩, 200, .escrowRec escrowDemo⟩ :: []) 100 ⟨5⟩ =
        ⟨[], ⟨⟨11⟩, false, ⟨60⟩, 10, .otherBytes 0⟩ ::
            ⟨⟨12⟩, false, spl_token_id, 5, .tokenAcc ⟨75, true⟩⟩ ::
            ⟨⟨13⟩, false, spl_token_id, 5, .tokenAcc ⟨0, true⟩⟩ ::
            ⟨⟨2⟩, false, spl_token_id, 5, .tokenAcc ⟨100, true⟩⟩ ::
            ⟨⟨1⟩, false, ⟨64⟩, 30, .otherBytes 0⟩ ::
            ⟨⟨3⟩, false, spl_token_id, 5, .tokenAcc ⟨0, true⟩⟩ ::
            ⟨⟨14⟩, false, ⟨66⟩, 200, .escrowRec escrowDemo⟩ :: [],
          .error .InvalidAccountData⟩) ∧
    ((⟨⟨11⟩, false, ⟨60⟩, (10 : Nat), AccountData.otherBytes 0⟩ : AccountInfo).is_signer = true →
      (100 : Nat) = 100 → ¬ (75 : Nat) < escrowDemo.expected_amount →
      escrowDemo.initializer_pubkey = Pubkey.mk 1 →
      escrowDemo.temp_token_account_pubkey ≠ Pubkey.mk 2 →
      process_trade fpaDemo oracleYes
          (⟨⟨11⟩, false, ⟨60⟩, 10, .otherBytes 0⟩ ::
            ⟨⟨12⟩, false, spl_token_id, 5, .tokenAcc ⟨75, true⟩⟩ ::
            ⟨⟨13⟩, false, spl_token_id, 5, .tokenAcc ⟨0, true⟩⟩ ::
            ⟨⟨2⟩, false, spl_token_id, 5, .tokenAcc ⟨100, true⟩⟩ ::
            ⟨⟨1⟩, false, ⟨64⟩, 30, .otherBytes 0⟩ ::
            ⟨⟨3⟩, false, spl_token_id, 5, .tokenAcc ⟨0, true⟩⟩ ::
            ⟨⟨14⟩, false, ⟨66⟩, 200, .escrowRec escrowDemo⟩ :: []) 100 ⟨5⟩ =
        ⟨[], ⟨⟨11⟩, false, ⟨60⟩, 10, .otherBytes 0⟩ ::
            ⟨⟨12⟩, false, spl_token_id, 5, .tokenAcc ⟨75, true⟩⟩ ::
            ⟨⟨13⟩, false, spl_token_id, 5, .tokenAcc ⟨0, true⟩⟩ ::
            ⟨⟨2⟩, false, spl_token_id, 5, .tokenAcc ⟨100, true⟩⟩ ::
            ⟨⟨1⟩, false, ⟨64⟩, 30, .otherBytes 0⟩ ::
            ⟨⟨3⟩, false, spl_token_id, 5, .tokenAcc ⟨0, true⟩⟩ ::
            ⟨⟨14⟩, false, ⟨66⟩, 200, .escrowRec escrowDemo⟩ :: [],
          .error .InvalidAccountData⟩) ∧
    ((⟨⟨11⟩, false, ⟨60⟩, (10 : Nat), AccountData.otherBytes 0⟩ : AccountInfo).is_signer = true →
      (100 : Nat) = 100 → ¬ (75 : Nat) < escrowDemo.expected_amount →
      escrowDemo.initializer_pubkey = Pubkey.mk 1 →
      escrowDemo.temp_token_account_pubkey = Pubkey.mk 2 →
      escrowDemo.initializer_token_to_receive_account_pubkey ≠ Pubkey.mk 3 →
      process_trade fpaDemo oracleYes
          (⟨⟨11⟩, false, ⟨60⟩, 10, .otherBytes 0⟩ ::
            ⟨⟨12⟩, false, spl_token_id, 5, .tokenAcc ⟨75, true⟩⟩ ::
            ⟨⟨13⟩, false, spl_token_id, 5, .tokenAcc ⟨0, true⟩⟩ ::
            ⟨⟨2⟩, false, spl_token_id, 5, .tokenAcc ⟨100, true⟩⟩ ::
            ⟨⟨1⟩, false, ⟨64⟩, 30, .otherBytes 0⟩ ::
            ⟨⟨3⟩, false, spl_token_id, 5, .tokenAcc ⟨0, true⟩⟩ ::
            ⟨⟨14⟩, false, ⟨66⟩, 200, .escrowRec escrowDemo⟩ :: []) 100 ⟨5⟩ =
        ⟨[], ⟨⟨11⟩, false, ⟨60⟩, 10, .otherBytes 0⟩ ::
            ⟨⟨12⟩, false, spl_token_id, 5, .tokenAcc ⟨75, true⟩⟩ ::
            ⟨⟨13⟩, false, spl_token_id, 5, .tokenAcc ⟨0, true⟩⟩ ::
            ⟨⟨2⟩, false, spl_token_id, 5, .tokenAcc ⟨100, true⟩⟩ ::
            ⟨⟨1⟩, false, ⟨64⟩, 30, .otherBytes 0⟩ ::
            ⟨⟨3⟩, false, spl_token_id, 5, .tokenAcc ⟨0, true⟩⟩ ::
            ⟨⟨14⟩, false, ⟨66⟩, 200, .escrowRec escrowDemo⟩ :: [],
          .error .InvalidAccountData⟩) :=
  trade_check_order fpaDemo oracleYes _ _ _ _ _ _ _ [] 100 ⟨5⟩ ⟨100, true⟩ ⟨75, true⟩
    escrowDemo rfl rfl rfl rfl rfl rfl

/-- C1: on a `settle` call whose six preconditions hold, the effects come
in this strict order, each gated on the previous one's acceptance:
(1) transfer of the record's `expected_amount` of Y from the taker's
send-account to the initializer's receiving account authorized by the
taker; (2) signed transfer of the taker-asserted amount of X from the
custody account to the taker's receive-account authorized by the derived
address; (3) signed close of the custody account paying its deposit to
the initializer; (4) overflow-checked credit of the record's lamports to
the initializer; (5) record lamports zeroed and data cleared. -/
theorem trade_effect_order (fpa : List (List Nat) → Pubkey → Pubkey × Nat)
    (oracle : Command → Bool) (a0 a1 a2 a3 a4 a5 a6 a7 a8 : AccountInfo)
    (rest : List AccountInfo) (asserted : Nat) (pid : Pubkey)
    (t3 t1 : TokenAccount) (e : Escrow)
    (h0 : a0.is_signer = true)
    (h3d : a3.data = .tokenAcc t3) (h3i : t3.initialized = true)
    (hamt : t3.amount = asserted)
    (h1d : a1.data = .tokenAcc t1) (h1i : t1.initialized = true)
    (h6d : a6.data = .escrowRec e) (hei : e.is_initialized = true)
    (hge : ¬ t1.amount < e.expected_amount)
    (hid1 : e.initializer_pubkey = a4.key)
    (hid2 : e.temp_token_account_pubkey = a3.key)
    (hid3 : e.initializer_token_to_receive_account_pubkey = a5.key) :
    process_trade fpa oracle
        (a0 :: a1 :: a2 :: a3 :: a4 :: a5 :: a6 :: a7 :: a8 :: rest) asserted pid =
      if oracle (.transfer a7.key a1.key a5.key a0.key e.expected_amount) = false then
        ⟨[.plain (.transfer a7.key a1.key a5.key a0.key e.expected_amount)],
          a0 :: a1 :: a2 :: a3 :: a4 :: a5 :: a6 :: a7 :: a8 :: rest,
          .error .ExternalFailure⟩
      else if oracle (.transfer a7.key a3.key a2.key (fpa [escrowSeed] pid).1 asserted)
          = false then
        ⟨[.plain (.transfer a7.key a1.key a5.key a0.key e.expected_amount),
            .signed (.transfer a7.key a3.key a2.key (fpa [escrowSeed] pid).1 asserted)
              [[escrowSeed, [(fpa [escrowSeed] pid).2]]]],
          a0 :: a1 :: a2 :: a3 :: a4 :: a5 :: a6 :: a7 :: a8 :: rest,
          .error .ExternalFailure⟩
      else if oracle (.close_account a7.key a3.key a4.key (fpa [escrowSeed] pid).1)
          = false then
        ⟨[.plain (.transfer a7.key a1.key a5.key a0.key e.expected_amount),
            .signed (.transfer a7.key a3.key a2.key (fpa [escrowSeed] pid).1 asserted)
              [[escrowSeed, [(fpa [escrowSeed] pid).2]]],
            .signed (.close_account a7.key a3.key a4.key (fpa [escrowSeed] pid).1)
              [[escrowSeed, [(fpa [escrowSeed] pid).2]]]],
          a0 :: a1 :: a2 :: a3 :: a4 :: a5 :: a6 :: a7 :: a8 :: rest,
          .error .ExternalFailure⟩
      else
        match u64_checked_add a4.lamports a6.lamports with
        | none =>
          ⟨[.plain (.transfer a7.key a1.key a5.key a0.key e.expected_amount),
              .signed (.transfer a7.key a3.key a2.key (fpa [escrowSeed] pid).1 asserted)
                [[escrowSeed, [(fpa [escrowSeed] pid).2]]],
              .signed (.close_account a7.key a3.key a4.key (fpa [escrowSeed] pid).1)
                [[escrowSeed, [(fpa [escrowSeed] pid).2]]]],
            a0 :: a1 :: a2 :: a3 :: a4 :: a5 :: a6 :: a7 :: a8 :: rest,
            .error .AmountOverFlow⟩
        | some s =>
          ⟨[.plain (.transfer a7.key a1.key a5.key a0.key e.expected_amount),
              .signed (.transfer a7.key a3.key a2.key (fpa [escrowSeed] pid).1 asserted)
                [[escrowSeed, [(fpa [escrowSeed] pid).2]]],
              .signed (.close_account a7.key a3.key a4.key (fpa [escrowSeed] pid).1)
                [[escrowSeed, [(fpa [escrowSeed] pid).2]]]],
            a0 :: a1 :: a2 :: a3 :: { a4 with lamports := s } :: a5 ::
              { a6 with lamports := 0, data := .cleared } :: a7 :: a8 :: rest,
            .ok ()⟩ := by
  simp [process_trade, h0, h3d, h3i, hamt, h1d, h1i, h6d, hei, hge, hid1, hid2, hid3,
    TokenAccount.unpack, Escrow.unpack, Escrow.unpack_unchecked, List.set]

/-- Witness for C1 on `tradeAccounts` with the all-accepting ledger: the
three commands go out in order and the record is destroyed, its 200
lamports credited to the initializer (30 + 200 = 230). -/
theorem trade_effect_order_witness :
    process_trade fpaDemo oracleYes tradeAccounts 100 ⟨5⟩ =
      ⟨[.plain (.transfer spl_token_id ⟨12⟩ ⟨3⟩ ⟨11⟩ 50),
          .signed (.transfer spl_token_id ⟨2⟩ ⟨13⟩ ⟨1006⟩ 100) [[escrowSeed, [254]]],
          .signed (.close_account spl_token_id ⟨2⟩ ⟨1⟩ ⟨1006⟩) [[escrowSeed, [254]]]],
        ⟨⟨11⟩, true, ⟨60⟩, 10, .otherBytes 0⟩ ::
          ⟨⟨12⟩, false, spl_token_id, 5, .tokenAcc ⟨75, true⟩⟩ ::
          ⟨⟨13⟩, false, spl_token_id, 5, .tokenAcc ⟨0, true⟩⟩ ::
          ⟨⟨2⟩, false, spl_token_id, 5, .tokenAcc ⟨100, true⟩⟩ ::
          ⟨⟨1⟩, false, ⟨64⟩, 230, .otherBytes 0⟩ ::
          ⟨⟨3⟩, false, spl_token_id, 5, .tokenAcc ⟨0, true⟩⟩ ::
          ⟨⟨14⟩, false, ⟨66⟩, 0, .cleared⟩ ::
          ⟨spl_token_id, false, ⟨67⟩, 1, .otherBytes 0⟩ ::
          ⟨⟨15⟩, false, ⟨68⟩, 0, .otherBytes 0⟩ :: [],
        .ok ()⟩ :=
  (trade_effect_order fpaDemo oracleYes _ _ _ _ _ _ _ _ _ [] 100 ⟨5⟩ ⟨100, true⟩ ⟨75, true⟩
    escrowDemo rfl rfl rfl rfl rfl rfl rfl rfl (by decide) rfl rfl rfl).trans (by rfl)

/-- C6: in `settle`, with the preconditions met and every external call
accepted, the lamport credit is an overflow-checked u64 addition: when
the sum of the initializer's and record's balances reaches 2^64 the call
fails with Overflow and no balance is written (no wrapping); otherwise
the exact sum is stored on the initializer, the record's lamports become
zero and its data is cleared. -/
theorem trade_lamport_credit_checked (fpa : List (List Nat) → Pubkey → Pubkey × Nat)
    (oracle : Command → Bool) (a0 a1 a2 a3 a4 a5 a6 a7 a8 : AccountInfo)
    (rest : List AccountInfo) (asserted : Nat) (pid : Pubkey)
    (t3 t1 : TokenAccount) (e : Escrow)
    (ho : ∀ c, oracle c = true)
    (h0 : a0.is_signer = true)
    (h3d : a3.data = .tokenAcc t3) (h3i : t3.initialized = true)
    (hamt : t3.amount = asserted)
    (h1d : a1.data = .tokenAcc t1) (h1i : t1.initialized = true)
    (h6d : a6.data = .escrowRec e) (hei : e.is_initialized = true)
    (hge : ¬ t1.amount < e.expected_amount)
    (hid1 : e.initializer_pubkey = a4.key)
    (hid2 : e.temp_token_account_pubkey = a3.key)
    (hid3 : e.initializer_token_to_receive_account_pubkey = a5.key) :
    (2 ^ 64 ≤ a4.lamports + a6.lamports →
      process_trade fpa oracle
          (a0 :: a1 :: a2 :: a3 :: a4 :: a5 :: a6 :: a7 :: a8 :: rest) asserted pid =
        ⟨[.plain (.transfer a7.key a1.key a5.key a0.key e.expected_amount),
            .signed (.transfer a7.key a3.key a2.key (fpa [escrowSeed] pid).1 asserted)
              [[escrowSeed, [(fpa [escrowSeed] pid).2]]],
            .signed (.close_account a7.key a3.key a4.key (fpa [escrowSeed] pid).1)
              [[escrowSeed, [(fpa [escrowSeed] pid).2]]]],
          a0 :: a1 :: a2 :: a3 :: a4 :: a5 :: a6 :: a7 :: a8 :: rest,
          .error .AmountOverFlow⟩) ∧
    (a4.lamports + a6.lamports < 2 ^ 64 →
      process_trade fpa oracle
          (a0 :: a1 :: a2 :: a3 :: a4 :: a5 :: a6 :: a7 :: a8 :: rest) asserted pid =
        ⟨[.plain (.transfer a7.key a1.key a5.key a0.key e.expected_amount),
            .signed (.transfer a7.key a3.key a2.key (fpa [escrowSeed] pid).1 asserted)
              [[escrowSeed, [(fpa [escrowSeed] pid).2]]],
            .signed (.close_account a7.key a3.key a4.key (fpa [escrowSeed] pid).1)
              [[escrowSeed, [(fpa [escrowSeed] pid).2]]]],
          a0 :: a1 :: a2 :: a3 :: { a4 with lamports := a4.lamports + a6.lamports } :: a5 ::
            { a6 with lamports := 0, data := .cleared } :: a7 :: a8 :: rest,
          .ok ()⟩) := by
  constructor
  · intro hov
    have hnl : (a4.lamports + a6.lamports < 18446744073709551616) = False :=
      eq_false (not_lt.mpr (by simpa using hov))
    simp [process_trade, ho, h0, h3d, h3i, hamt, h1d, h1i, h6d, hei, hge, hid1, hid2, hid3,
      TokenAccount.unpack, Escrow.unpack, Escrow.unpack_unchecked, u64_checked_add, hnl,
      List.set]
  · intro hlt
    have hl : (a4.lamports + a6.lamports < 18446744073709551616) = True :=
      eq_true (by simpa using hlt)
    simp [process_trade, ho, h0, h3d, h3i, hamt, h1d, h1i, h6d, hei, hge, hid1, hid2, hid3,
      TokenAccount.unpack, Escrow.unpack, Escrow.unpack_unchecked, u64_checked_add, hl,
      List.set]

/-- A settle account list identical to `tradeAccounts` except that the
initializer already holds 2^64 - 100 lamports, so sweeping the record's
200 lamports would overflow a u64. -/
def tradeOverflowAccounts : List AccountInfo :=
  [ ⟨⟨11⟩, true, ⟨60⟩, 10, .otherBytes 0⟩,
    ⟨⟨12⟩, false, spl_token_id, 5, .tokenAcc ⟨75, true⟩⟩,
    ⟨⟨13⟩, false, spl_token_id, 5, .tokenAcc ⟨0, true⟩⟩,
    ⟨⟨2⟩, false, spl_token_id, 5, .tokenAcc ⟨100, true⟩⟩,
    ⟨⟨1⟩, false, ⟨64⟩, 2 ^ 64 - 100, .otherBytes 0⟩,
    ⟨⟨3⟩, false, spl_token_id, 5, .tokenAcc ⟨0, true⟩⟩,
    ⟨⟨14⟩, false, ⟨66⟩, 200, .escrowRec escrowDemo⟩,
    ⟨spl_token_id, false, ⟨67⟩, 1, .otherBytes 0⟩,
    ⟨⟨15⟩, false, ⟨68⟩, 0, .otherBytes 0⟩ ]

/-- Witness for C6 on `tradeOverflowAccounts`, where the overflow branch
is the live one. -/
theorem trade_lamport_credit_checked_witness :
    ((2 : Nat) ^ 64 ≤ 2 ^ 64 - 100 + 200 →
      process_trade fpaDemo oracleYes tradeOverflowAccounts 100 ⟨5⟩ =
        ⟨[.plain (.transfer spl_token_id ⟨12⟩ ⟨3⟩ ⟨11⟩ escrowDemo.expected_amount),
            .signed (.transfer spl_token_id ⟨2⟩ ⟨13⟩ (fpaDemo [escrowSeed] ⟨5⟩).1 100)
              [[escrowSeed, [(fpaDemo [escrowSeed] ⟨5⟩).2]]],
            .signed (.close_account spl_token_id ⟨2⟩ ⟨1⟩ (fpaDemo [escrowSeed] ⟨5⟩).1)
              [[escrowSeed, [(fpaDemo [escrowSeed] ⟨5⟩).2]]]],
          tradeOverflowAccounts, .error .AmountOverFlow⟩) ∧
    ((2 : Nat) ^ 64 - 100 + 200 < 2 ^ 64 →
      process_trade fpaDemo oracleYes tradeOverflowAccounts 100 ⟨5⟩ =
        ⟨[.plain (.transfer spl_token_id ⟨12⟩ ⟨3⟩ ⟨11⟩ escrowDemo.expected_amount),
            .signed (.transfer spl_token_id ⟨2⟩ ⟨13⟩ (fpaDemo [escrowSeed] ⟨5⟩).1 100)
              [[escrowSeed, [(fpaDemo [escrowSeed] ⟨5⟩).2]]],
            .signed (.close_account spl_token_id ⟨2⟩ ⟨1⟩ (fpaDemo [escrowSeed] ⟨5⟩).1)
              [[escrowSeed, [(fpaDemo [escrowSeed] ⟨5⟩).2]]]],
          ⟨⟨11⟩, true, ⟨60⟩, 10, .otherBytes 0⟩ ::
            ⟨⟨12⟩, false, spl_token_id, 5, .tokenAcc ⟨75, true⟩⟩ ::
            ⟨⟨13⟩, false, spl_token_id, 5, .tokenAcc ⟨0, true⟩⟩ ::
            ⟨⟨2⟩, false, spl_token_id, 5, .tokenAcc ⟨100, true⟩⟩ ::
            ⟨⟨1⟩, false, ⟨64⟩, 2 ^ 64 - 100 + 200, .otherBytes 0⟩ ::
            ⟨⟨3⟩, false, spl_token_id, 5, .tokenAcc ⟨0, true⟩⟩ ::
            ⟨⟨14⟩, false, ⟨66⟩, 0, .cleared⟩ ::
            ⟨spl_token_id, false, ⟨67⟩, 1, .otherBytes 0⟩ ::
            ⟨⟨15⟩, false, ⟨68⟩, 0, .otherBytes 0⟩ :: [],
          .ok ()⟩) :=
  trade_lamport_credit_checked fpaDemo oracleYes
    ⟨⟨11⟩, true, ⟨60⟩, 10, .otherBytes 0⟩
    ⟨⟨12⟩, false, spl_token_id, 5, .tokenAcc ⟨75, true⟩⟩
    ⟨⟨13⟩, false, spl_token_id, 5, .tokenAcc ⟨0, true⟩⟩
    ⟨⟨2⟩, false, spl_token_id, 5, .tokenAcc ⟨100, true⟩⟩
    ⟨⟨1⟩, false, ⟨64⟩, 2 ^ 64 - 100, .otherBytes 0⟩
    ⟨⟨3⟩, false, spl_token_id, 5, .tokenAcc ⟨0, true⟩⟩
    ⟨⟨14⟩, false, ⟨66⟩, 200, .escrowRec escrowDemo⟩
    ⟨spl_token_id, false, ⟨67⟩, 1, .otherBytes 0⟩
    ⟨⟨15⟩, false, ⟨68⟩, 0, .otherBytes 0⟩
    [] 100 ⟨5⟩ ⟨100, true⟩ ⟨75, true⟩ escrowDemo (fun _ => rfl) rfl rfl rfl rfl rfl rfl
    rfl rfl (by decide) rfl rfl rfl

/-- C8: replaying a `settle` against the state a successful settle leaves
behind — custody account closed, record data cleared and lamports zeroed
— fails (the custody buffer no longer deserializes) before any transfer
command is issued: the trace is empty and nothing is mutated. -/
theorem trade_replay_fails (fpa : List (List Nat) → Pubkey → Pubkey × Nat)
    (oracle : Command → Bool) (a0 a1 a2 a3 a4 a5 a6 a7 a8 : AccountInfo)
    (rest : List AccountInfo) (asserted : Nat) (pid : Pubkey)
    (h0 : a0.is_signer = true) (h3 : a3.data = .cleared)
    (h6 : a6.data = .cleared) (h6l : a6.lamports = 0) :
    process_trade fpa oracle
        (a0 :: a1 :: a2 :: a3 :: a4 :: a5 :: a6 :: a7 :: a8 :: rest) asserted pid =
      ⟨[], a0 :: a1 :: a2 :: a3 :: a4 :: a5 :: a6 :: a7 :: a8 :: rest,
        .error .InvalidAccountData⟩ := by
  simp [process_trade, h0, h3, TokenAccount.unpack]

/-- Witness for C8 on `tradeReplayAccounts`, the concrete post-settle
state of the `tradeAccounts` scenario. -/
theorem trade_replay_fails_witness :
    process_trade fpaDemo oracleYes tradeReplayAccounts 100 ⟨5⟩ =
      ⟨[], tradeReplayAccounts, .error .InvalidAccountData⟩ :=
  (trade_replay_fails fpaDemo oracleYes _ _ _ _ _ _ _ _ _ [] 100 ⟨5⟩
    rfl rfl rfl rfl).trans (by rfl)

/-- The five accounts §4 enumerates for `open`, with no token-program
account appended; every §4.1 precondition holds on them. -/
def openAccountsFive : List AccountInfo :=
  [ ⟨⟨1⟩, true, ⟨50⟩, 10, .otherBytes 0⟩,
    ⟨⟨2⟩, false, spl_token_id, 5, .tokenAcc ⟨100, true⟩⟩,
    ⟨⟨3⟩, false, spl_token_id, 5, .tokenAcc ⟨0, true⟩⟩,
    ⟨⟨4⟩, false, ⟨52⟩, 200, .escrowRec Escrow.zeroed⟩,
    ⟨⟨5⟩, false, ⟨53⟩, 1, .rentSysvar rentDemo⟩ ]

/-- C5 counterexample: an `open` call supplied with exactly the five
accounts the claim enumerates — all its preconditions holding — still
fails demanding another account, so `open` does not consume only those
five: it also consumes a sixth (the token-ledger program). -/
theorem open_consumes_a_sixth_account :
    openAccountsFive.length = 5 ∧
      (process_init_escrow fpaDemo oracleYes openAccountsFive 7 ⟨5⟩).result =
        .error .NotEnoughAccountKeys :=
  ⟨rfl, rfl⟩

/-- C7: for any derivation function and any program identity, the
authority `open` hands the custody account to and the authority
`settle`'s signed calls act under are the same single term
`fpa [escrowSeed] pid` — both transitions apply the derivation to the
one fixed seed — and `settle`'s signed calls carry exactly that seed
material (`escrowSeed` plus the derived bump). -/
theorem derivation_shared_between_open_and_settle
    (fpa : List (List Nat) → Pubkey → Pubkey × Nat) (oracle : Command → Bool)
    (a0 a1 a2 a3 a4 a5 : AccountInfo) (restA : List AccountInfo)
    (b0 b1 b2 b3 b4 b5 b6 b7 b8 : AccountInfo) (restB : List AccountInfo)
    (amount asserted : Nat) (pid : Pubkey) (r : Rent) (e0 : Escrow)
    (t3 t1 : TokenAccount) (e : Escrow)
    (ho : ∀ c, oracle c = true)
    (h0 : a0.is_signer = true) (h2 : a2.owner = spl_token_id)
    (h4 : a4.data = .rentSysvar r)
    (hex : r.is_exempt a3.lamports a3.data.data_len = true)
    (h3 : a3.data = .escrowRec e0) (hinit : e0.is_initialized = false)
    (g0 : b0.is_signer = true)
    (g3d : b3.data = .tokenAcc t3) (g3i : t3.initialized = true)
    (gamt : t3.amount = asserted)
    (g1d : b1.data = .tokenAcc t1) (g1i : t1.initialized = true)
    (g6d : b6.data = .escrowRec e) (gei : e.is_initialized = true)
    (gge : ¬ t1.amount < e.expected_amount)
    (gid1 : e.initializer_pubkey = b4.key)
    (gid2 : e.temp_token_account_pubkey = b3.key)
    (gid3 : e.initializer_token_to_receive_account_pubkey = b5.key) :
    (process_init_escrow fpa oracle (a0 :: a1 :: a2 :: a3 :: a4 :: a5 :: restA)
        amount pid).trace =
      [.plain (.set_authority a5.key a1.key (fpa [escrowSeed] pid).1 a0.key)] ∧
    (process_trade fpa oracle (b0 :: b1 :: b2 :: b3 :: b4 :: b5 :: b6 :: b7 :: b8 :: restB)
        asserted pid).trace =
      [.plain (.transfer b7.key b1.key b5.key b0.key e.expected_amount),
        .signed (.transfer b7.key b3.key b2.key (fpa [escrowSeed] pid).1 asserted)
          [[escrowSeed, [(fpa [escrowSeed] pid).2]]],
        .signed (.close_account b7.key b3.key b4.key (fpa [escrowSeed] pid).1)
          [[escrowSeed, [(fpa [escrowSeed] pid).2]]]] := by
  constructor
  · rw [h3] at hex
    simp [process_init_escrow, ho, h0, h2, h3, h4, hinit, Rent.from_account_info,
      Escrow.unpack_unchecked, hex, List.set]
  · rcases hsum : u64_checked_add b4.lamports b6.lamports with _ | s <;>
      simp [process_trade, ho, g0, g3d, g3i, gamt, g1d, g1i, g6d, gei, gge, gid1, gid2,
        gid3, TokenAccount.unpack, Escrow.unpack, Escrow.unpack_unchecked, hsum, List.set]

/-- Witness for C7 on the concrete `openAccounts` / `tradeAccounts` pair
under the same program identity. -/
theorem derivation_shared_between_open_and_settle_witness :
    (process_init_escrow fpaDemo oracleYes openAccounts 7 ⟨5⟩).trace =
      [.plain (.set_authority spl_token_id ⟨2⟩ (fpaDemo [escrowSeed] ⟨5⟩).1 ⟨1⟩)] ∧
    (process_trade fpaDemo oracleYes tradeAccounts 100 ⟨5⟩).trace =
      [.plain (.transfer spl_token_id ⟨12⟩ ⟨3⟩ ⟨11⟩ escrowDemo.expected_amount),
        .signed (.transfer spl_token_id ⟨2⟩ ⟨13⟩ (fpaDemo [escrowSeed] ⟨5⟩).1 100)
          [[escrowSeed, [(fpaDemo [escrowSeed] ⟨5⟩).2]]],
        .signed (.close_account spl_token_id ⟨2⟩ ⟨1⟩ (fpaDemo [escrowSeed] ⟨5⟩).1)
          [[escrowSeed, [(fpaDemo [escrowSeed] ⟨5⟩).2]]]] :=
  derivation_shared_between_open_and_settle fpaDemo oracleYes
    ⟨⟨1⟩, true, ⟨50⟩, 10, .otherBytes 0⟩
    ⟨⟨2⟩, false, spl_token_id, 5, .tokenAcc ⟨100, true⟩⟩
    ⟨⟨3⟩, false, spl_token_id, 5, .tokenAcc ⟨0, true⟩⟩
    ⟨⟨4⟩, false, ⟨52⟩, 200, .escrowRec Escrow.zeroed⟩
    ⟨⟨5⟩, false, ⟨53⟩, 1, .rentSysvar rentDemo⟩
    ⟨spl_token_id, false, ⟨54⟩, 1, .otherBytes 0⟩ []
    ⟨⟨11⟩, true, ⟨60⟩, 10, .otherBytes 0⟩
    ⟨⟨12⟩, false, spl_token_id, 5, .tokenAcc ⟨75, true⟩⟩
    ⟨⟨13⟩, false, spl_token_id, 5, .tokenAcc ⟨0, true⟩⟩
    ⟨⟨2⟩, false, spl_token_id, 5, .tokenAcc ⟨100, true⟩⟩
    ⟨⟨1⟩, false, ⟨64⟩, 30, .otherBytes 0⟩
    ⟨⟨3⟩, false, spl_token_id, 5, .tokenAcc ⟨0, true⟩⟩
    ⟨⟨14⟩, false, ⟨66⟩, 200, .escrowRec escrowDemo⟩
    ⟨spl_token_id, false, ⟨67⟩, 1, .otherBytes 0⟩
    ⟨⟨15⟩, false, ⟨68⟩, 0, .otherBytes 0⟩ []
    7 100 ⟨5⟩ rentDemo Escrow.zeroed ⟨100, true⟩ ⟨75, true⟩ escrowDemo
    (fun _ => rfl) rfl rfl rfl (by decide) rfl rfl rfl rfl rfl rfl rfl rfl rfl rfl
    (by decide) rfl rfl rfl

/-- C5 (amended): the operations consume their accounts positionally and
depend on nothing beyond their consumed prefix — but the prefix is six
accounts for `open` (the five enumerated plus the token-ledger program)
and nine for `settle` (the seven enumerated plus the token-ledger
program and the derived-authority account): every run on a longer list
equals the run on the prefix with the unread tail carried through
untouched. -/
theorem accounts_consumed_positionally (fpa : List (List Nat) → Pubkey → Pubkey × Nat)
    (oracle : Command → Bool) (amount asserted : Nat) (pid : Pubkey)
    (a0 a1 a2 a3 a4 a5 : AccountInfo) (b0 b1 b2 b3 b4 b5 b6 b7 b8 : AccountInfo)
    (restA restB : List AccountInfo) :
    process_init_escrow fpa oracle (a0 :: a1 :: a2 :: a3 :: a4 :: a5 :: restA)
        amount pid =
      ⟨(process_init_escrow fpa oracle [a0, a1, a2, a3, a4, a5] amount pid).trace,
        (process_init_escrow fpa oracle [a0, a1, a2, a3, a4, a5] amount pid).accounts
          ++ restA,
        (process_init_escrow fpa oracle [a0, a1, a2, a3, a4, a5] amount pid).result⟩ ∧
    process_trade fpa oracle
        (b0 :: b1 :: b2 :: b3 :: b4 :: b5 :: b6 :: b7 :: b8 :: restB) asserted pid =
      ⟨(process_trade fpa oracle [b0, b1, b2, b3, b4, b5, b6, b7, b8] asserted pid).trace,
        (process_trade fpa oracle [b0, b1, b2, b3, b4, b5, b6, b7, b8] asserted pid).accounts
          ++ restB,
        (process_trade fpa oracle [b0, b1, b2, b3, b4, b5, b6, b7, b8] asserted pid).result⟩ := by
  constructor
  · simp only [process_init_escrow]
    repeat' split
    all_goals simp_all [List.set]
  · cases hs : b0.is_signer with
    | false => simp [process_trade, hs]
    | true =>
      rcases hu3 : TokenAccount.unpack b3.data with e3 | t3
      · simp [process_trade, hs, hu3]
      · by_cases hamt : t3.amount = asserted
        · rcases hu6 : Escrow.unpack b6.data with e6 | einfo
          · simp [process_trade, hs, hu3, hamt, hu6]
          · rcases hu1 : TokenAccount.unpack b1.data with e1 | t1
            · simp [process_trade, hs, hu3, hamt, hu6, hu1]
            · by_cases hlt : t1.amount < einfo.expected_amount
              · simp [process_trade, hs, hu3, hamt, hu6, hu1, hlt]
              · by_cases hid1 : einfo.initializer_pubkey = b4.key
                · by_cases hid2 : einfo.temp_token_account_pubkey = b3.key
                  · by_cases hid3 :
                        einfo.initializer_token_to_receive_account_pubkey = b5.key
                    · cases ho1 : oracle (.transfer b7.key b1.key b5.key b0.key
                          einfo.expected_amount) with
                      | false =>
                        simp [process_trade, hs, hu3, hamt, hu6, hu1, hlt, hid1, hid2,
                          hid3, ho1]
                      | true =>
                        cases ho2 : oracle (.transfer b7.key b3.key b2.key
                            (fpa [escrowSeed] pid).1 asserted) with
                        | false =>
                          simp [process_trade, hs, hu3, hamt, hu6, hu1, hlt, hid1, hid2,
                            hid3, ho1, ho2]
                        | true =>
                          cases ho3 : oracle (.close_account b7.key b3.key b4.key
                              (fpa [escrowSeed] pid).1) with
                          | false =>
                            simp [process_trade, hs, hu3, hamt, hu6, hu1, hlt, hid1,
                              hid2, hid3, ho1, ho2, ho3]
                          | true =>
                            rcases hadd : u64_checked_add b4.lamports b6.lamports
                                with _ | s <;>
                              simp [process_trade, hs, hu3, hamt, hu6, hu1, hlt, hid1,
                                hid2, hid3, ho1, ho2, ho3, hadd, List.set]
                    · simp [process_trade, hs, hu3, hamt, hu6, hu1, hlt, hid1, hid2,
                        hid3]
                  · simp [process_trade, hs, hu3, hamt, hu6, hu1, hlt, hid1, hid2]
                · simp [process_trade, hs, hu3, hamt, hu6, hu1, hlt, hid1]
        · simp [process_trade, hs, hu3, hamt]

/-- C10: `open` performs no validation of the temporary custody account:
replacing it by any account with the same key — arbitrary owner, data,
balance and signer flag — leaves the outcome's result and trace
unchanged, and the output account lists agree except for that position
carrying the substitute through; only the custody account's key is read,
recorded verbatim in the persisted record and in the set-authority
command. -/
theorem open_ignores_custody_account (fpa : List (List Nat) → Pubkey → Pubkey × Nat)
    (oracle : Command → Bool) (a0 a1 a1' a2 a3 a4 a5 : AccountInfo)
    (rest : List AccountInfo) (amount : Nat) (pid : Pubkey)
    (hk : a1.key = a1'.key) :
    (process_init_escrow fpa oracle (a0 :: a1 :: a2 :: a3 :: a4 :: a5 :: rest)
        amount pid).result =
      (process_init_escrow fpa oracle (a0 :: a1' :: a2 :: a3 :: a4 :: a5 :: rest)
        amount pid).result ∧
    (process_init_escrow fpa oracle (a0 :: a1 :: a2 :: a3 :: a4 :: a5 :: rest)
        amount pid).trace =
      (process_init_escrow fpa oracle (a0 :: a1' :: a2 :: a3 :: a4 :: a5 :: rest)
        amount pid).trace ∧
    (process_init_escrow fpa oracle (a0 :: a1 :: a2 :: a3 :: a4 :: a5 :: rest)
        amount pid).accounts =
      ((process_init_escrow fpa oracle (a0 :: a1' :: a2 :: a3 :: a4 :: a5 :: rest)
        amount pid).accounts).set 1 a1 := by
  simp only [process_init_escrow, hk]
  repeat' split
  all_goals simp_all [List.set]

/-- Witness for C10: swapping `openAccounts`' custody account for a
same-keyed account with different owner, balance, data and signer flag
changes nothing but the carried account. -/
theorem open_ignores_custody_account_witness :
    (process_init_escrow fpaDemo oracleYes
        (⟨⟨1⟩, true, ⟨50⟩, 10, .otherBytes 0⟩ ::
          ⟨⟨2⟩, false, spl_token_id, 5, .tokenAcc ⟨100, true⟩⟩ ::
          ⟨⟨3⟩, false, spl_token_id, 5, .tokenAcc ⟨0, true⟩⟩ ::
          ⟨⟨4⟩, false, ⟨52⟩, 200, .escrowRec Escrow.zeroed⟩ ::
          ⟨⟨5⟩, false, ⟨53⟩, 1, .rentSysvar rentDemo⟩ ::
          [⟨spl_token_id, false, ⟨54⟩, 1, .otherBytes 0⟩]) 7 ⟨5⟩).result =
      (process_init_escrow fpaDemo oracleYes
        (⟨⟨1⟩, true, ⟨50⟩, 10, .otherBytes 0⟩ ::
          ⟨⟨2⟩, true, ⟨77⟩, 0, .otherBytes 3⟩ ::
          ⟨⟨3⟩, false, spl_token_id, 5, .tokenAcc ⟨0, true⟩⟩ ::
          ⟨⟨4⟩, false, ⟨52⟩, 200, .escrowRec Escrow.zeroed⟩ ::
          ⟨⟨5⟩, false, ⟨53⟩, 1, .rentSysvar rentDemo⟩ ::
          [⟨spl_token_id, false, ⟨54⟩, 1, .otherBytes 0⟩]) 7 ⟨5⟩).result ∧
    (process_init_escrow fpaDemo oracleYes
        (⟨⟨1⟩, true, ⟨50⟩, 10, .otherBytes 0⟩ ::
          ⟨⟨2⟩, false, spl_token_id, 5, .tokenAcc ⟨100, true⟩⟩ ::
          ⟨⟨3⟩, false, spl_token_id, 5, .tokenAcc ⟨0, true⟩⟩ ::
          ⟨⟨4⟩, false, ⟨52⟩, 200, .escrowRec Escrow.zeroed⟩ ::
          ⟨⟨5⟩, false, ⟨53⟩, 1, .rentSysvar rentDemo⟩ ::
          [⟨spl_token_id, false, ⟨54⟩, 1, .otherBytes 0⟩]) 7 ⟨5⟩).trace =
      (process_init_escrow fpaDemo oracleYes
        (⟨⟨1⟩, true, ⟨50⟩, 10, .otherBytes 0⟩ ::
          ⟨⟨2⟩, true, ⟨77⟩, 0, .otherBytes 3⟩ ::
          ⟨⟨3⟩, false, spl_token_id, 5, .tokenAcc ⟨0, true⟩⟩ ::
          ⟨⟨4⟩, false, ⟨52⟩, 200, .escrowRec Escrow.zeroed⟩ ::
          ⟨⟨5⟩, false, ⟨53⟩, 1, .rentSysvar rentDemo⟩ ::
          [⟨spl_token_id, false, ⟨54⟩, 1, .otherBytes 0⟩]) 7 ⟨5⟩).trace ∧
    (process_init_escrow fpaDemo oracleYes
        (⟨⟨1⟩, true, ⟨50⟩, 10, .otherBytes 0⟩ ::
          ⟨⟨2⟩, false, spl_token_id, 5, .tokenAcc ⟨100, true⟩⟩ ::
          ⟨⟨3⟩, false, spl_token_id, 5, .tokenAcc ⟨0, true⟩⟩ ::
          ⟨⟨4⟩, false, ⟨52⟩, 200, .escrowRec Escrow.zeroed⟩ ::
          ⟨⟨5⟩, false, ⟨53⟩, 1, .rentSysvar rentDemo⟩ ::
          [⟨spl_token_id, false, ⟨54⟩, 1, .otherBytes 0⟩]) 7 ⟨5⟩).accounts =
      ((process_init_escrow fpaDemo oracleYes
        (⟨⟨1⟩, true, ⟨50⟩, 10, .otherBytes 0⟩ ::
          ⟨⟨2⟩, true, ⟨77⟩, 0, .otherBytes 3⟩ ::
          ⟨⟨3⟩, false, spl_token_id, 5, .tokenAcc ⟨0, true⟩⟩ ::
          ⟨⟨4⟩, false, ⟨52⟩, 200, .escrowRec Escrow.zeroed⟩ ::
          ⟨⟨5⟩, false, ⟨53⟩, 1, .rentSysvar rentDemo⟩ ::
          [⟨spl_token_id, false, ⟨54⟩, 1, .otherBytes 0⟩]) 7 ⟨5⟩).accounts).set 1
        ⟨⟨2⟩, false, spl_token_id, 5, .tokenAcc ⟨100, true⟩⟩ :=
  open_ignores_custody_account fpaDemo oracleYes
    ⟨⟨1⟩, true, ⟨50⟩, 10, .otherBytes 0⟩
    ⟨⟨2⟩, false, spl_token_id, 5, .tokenAcc ⟨100, true⟩⟩
    ⟨⟨2⟩, true, ⟨77⟩, 0, .otherBytes 3⟩
    ⟨⟨3⟩, false, spl_token_id, 5, .tokenAcc ⟨0, true⟩⟩
    ⟨⟨4⟩, false, ⟨52⟩, 200, .escrowRec Escrow.zeroed⟩
    ⟨⟨5⟩, false, ⟨53⟩, 1, .rentSysvar rentDemo⟩
    ⟨spl_token_id, false, ⟨54⟩, 1, .otherBytes 0⟩
    [] 7 ⟨5⟩ rfl

end EscrowSpec
